import Mathlib

/-!
Verification of the repeater experiment-protocol core against its
natural-language specification.

The definitions below are a shallow embedding of the Python sources:
  * `paradigm/utils/trigger_utils.py`   (code allocator, trigger dispatcher)
  * `paradigm/utils/randomization_utils.py` (stratified block generation)
  * `paradigm/utils/block_utils.py`     (session state, protocol persistence)
  * `scripts/validate_against_ground_truth.py` (aligner and statistics)

Machine integers are modelled as `Nat`, Python `ValueError` as `Option`,
the numpy global PRNG as an explicit state threaded through an abstract
`RNG` interface, and the filesystem as explicit lists of directory entries.
-/

/-! ### Code allocator (`paradigm/utils/trigger_utils.py`) -/

/-- The fixed base trigger codes, `TRIGGER_CODES` in `trigger_utils.py`. -/
def TRIGGER_CODES : List (String × Nat) :=
  [("trial_start", 2), ("fixation", 1),
   ("concept_category_a", 10), ("concept_category_b", 20),
   ("beep_start", 30), ("beep_1", 31), ("beep_2", 32), ("beep_3", 33),
   ("beep_4", 34), ("beep_5", 35), ("beep_6", 36), ("beep_7", 37), ("beep_8", 38),
   ("trial_end", 40), ("block_start", 50), ("block_end", 51)]

/-- `get_trial_start_code`: trial N start = 100 + N, valid for 1 ≤ N ≤ 99;
`none` models the `ValueError` raised outside that range. -/
def get_trial_start_code (trial_num : Nat) : Option Nat :=
  if trial_num < 1 ∨ trial_num > 99 then none else some (100 + trial_num)

/-- `get_trial_end_code`: trial N end = 200 + N, valid for 1 ≤ N ≤ 99. -/
def get_trial_end_code (trial_num : Nat) : Option Nat :=
  if trial_num < 1 ∨ trial_num > 99 then none else some (200 + trial_num)

/-- `get_block_start_code`: block N start = 150 + N, valid for 1 ≤ N ≤ 9. -/
def get_block_start_code (block_num : Nat) : Option Nat :=
  if block_num < 1 ∨ block_num > 9 then none else some (150 + block_num)

/-- `get_block_end_code`: block N end = 250 + N, valid for 1 ≤ N ≤ 9. -/
def get_block_end_code (block_num : Nat) : Option Nat :=
  if block_num < 1 ∨ block_num > 9 then none else some (250 + block_num)

/-- `get_beep_code`: beep N = 30 + N, valid for 1 ≤ N ≤ max_beeps (default 8). -/
def get_beep_code (beep_num : Nat) (max_beeps : Nat := 8) : Option Nat :=
  if beep_num < 1 ∨ beep_num > max_beeps then none else some (30 + beep_num)

/-- The set of trial-start codes produced for trial numbers in `[lo, hi]`. -/
def trial_start_codes (lo hi : Nat) : Finset Nat :=
  (Finset.Icc lo hi).image (fun t => (get_trial_start_code t).getD 0)

/-- The set of trial-end codes produced for trial numbers in `[lo, hi]`. -/
def trial_end_codes (lo hi : Nat) : Finset Nat :=
  (Finset.Icc lo hi).image (fun t => (get_trial_end_code t).getD 0)

/-- The set of block-start codes produced for block numbers 1–9. -/
def block_start_codes : Finset Nat :=
  (Finset.Icc 1 9).image (fun b => (get_block_start_code b).getD 0)

/-- The set of block-end codes produced for block numbers 1–9. -/
def block_end_codes : Finset Nat :=
  (Finset.Icc 1 9).image (fun b => (get_block_end_code b).getD 0)

/-- The set of beep codes produced for beep numbers 1–8. -/
def beep_codes_set : Finset Nat :=
  (Finset.Icc 1 8).image (fun n => (get_beep_code n 8).getD 0)

/-- The dict keys `beep_1` … `beep_8` of `TRIGGER_CODES`, whose values are
the per-beep range itself. -/
def beepNames : List String :=
  ["beep_1", "beep_2", "beep_3", "beep_4", "beep_5", "beep_6", "beep_7", "beep_8"]

/-- The fixed `TRIGGER_CODES` values other than the per-beep entries
`beep_1` … `beep_8` (those are the beep range itself). -/
def base_event_codes : Finset Nat :=
  ((TRIGGER_CODES.filter (fun p => !(beepNames.contains p.1))).map Prod.snd).toFinset

/-! ### Sequential aligner (`scripts/validate_against_ground_truth.py`) -/

/-- One row of the alignment report built by `align_triggers_sequential`. -/
structure AlignmentEntry where
  sequence_position : Nat
  expected_code : Nat
  observed_code : Option Nat
  position_match : Bool
  code_match : Bool
deriving DecidableEq, Repr

/-- The inner loop `for obs_idx in range(observed_idx, len(observed))`:
the first index `m ≥ start` with `observed[m] = c`, if any. -/
def findFrom (observed : List Nat) (start : Nat) (c : Nat) : Option Nat :=
  ((observed.drop start).findIdx? (fun x => x == c)).map (· + start)

/-- The main loop of `align_triggers_sequential`, with the ground-truth
position counter `gt_idx` and the persistent `observed_idx` made explicit. -/
def alignGo (observed : List Nat) : List Nat → Nat → Nat → List AlignmentEntry
  | [], _, _ => []
  | e :: rest, gtIdx, obsIdx =>
    match findFrom observed obsIdx e with
    | some m =>
        { sequence_position := gtIdx + 1
          expected_code := e
          observed_code := some (observed.getD m 0)
          position_match := true
          code_match := observed.getD m 0 == e } :: alignGo observed rest (gtIdx + 1) (m + 1)
    | none =>
        { sequence_position := gtIdx + 1
          expected_code := e
          observed_code := none
          position_match := false
          code_match := false } :: alignGo observed rest (gtIdx + 1) obsIdx

/-- `align_triggers_sequential(ground_truth, observed)` restricted to the
trigger codes, which are all the alignment logic inspects. -/
def align_triggers_sequential (ground_truth observed : List Nat) : List AlignmentEntry :=
  alignGo observed ground_truth 0 0

/-- The aggregate statistics computed by `validate_against_ground_truth`
from the alignment list and the observed stream. -/
structure ValidationStats where
  total_expected : Nat
  total_observed : Nat
  matched : Nat
  missing : Nat
  extra : Int
deriving DecidableEq, Repr

/-- `validate_against_ground_truth`'s statistics block:
`matched` counts `code_match` entries, `missing` counts entries with no
`position_match`, `extra = len(observed) - matched`. -/
def validationStats (ground_truth observed : List Nat) : ValidationStats :=
  let alignments := align_triggers_sequential ground_truth observed
  let matched := (alignments.filter (fun a => a.code_match)).length
  { total_expected := alignments.length
    total_observed := observed.length
    matched := matched
    missing := (alignments.filter (fun a => !a.position_match)).length
    extra := (observed.length : Int) - (matched : Int) }

/-- `match_rate = matched / total_expected` as computed in
`validate_against_ground_truth`. -/
def match_rate (ground_truth observed : List Nat) : ℚ :=
  let s := validationStats ground_truth observed
  if s.total_expected > 0 then (s.matched : ℚ) / (s.total_expected : ℚ) else 0

/-- The drop rate `missing / total_expected` derived from the report's
`missing` and `total_expected` fields (the spec's `dropped/expected`). -/
def drop_rate (ground_truth observed : List Nat) : ℚ :=
  let s := validationStats ground_truth observed
  if s.total_expected > 0 then (s.missing : ℚ) / (s.total_expected : ℚ) else 0

/-- The strict lookahead-free aligner the specification describes in §4.6:
on a mismatch the expected entry is dropped, only the expected pointer
advances, and the same observed element is compared next.  Stated from the
spec's words, for comparison with `align_triggers_sequential`. -/
def alignSpecStrict : List Nat → List Nat → Nat → List AlignmentEntry
  | [], _, _ => []
  | e :: rest, [], pos =>
      { sequence_position := pos + 1, expected_code := e, observed_code := none
        position_match := false, code_match := false } :: alignSpecStrict rest [] (pos + 1)
  | e :: rest, o :: os, pos =>
      if e = o then
        { sequence_position := pos + 1, expected_code := e, observed_code := some o
          position_match := true, code_match := true } :: alignSpecStrict rest os (pos + 1)
      else
        { sequence_position := pos + 1, expected_code := e, observed_code := none
          position_match := false, code_match := false } :: alignSpecStrict rest (o :: os) (pos + 1)

/-! ### Stratified block generation (`paradigm/utils/randomization_utils.py`) -/

/-- A trial record as built by `create_stratified_block_sequence`:
`{'trial_num': …, 'concept': …, 'category': 'A'|'B'}`. -/
inductive Category where
  | A
  | B
deriving DecidableEq, Repr

structure Trial where
  trial_num : Nat
  concept : String
  category : Category
deriving DecidableEq, Repr

/-- The numpy global PRNG, abstracted to its interface as used by
`create_stratified_block_sequence`: `np.random.seed`, `np.random.shuffle`
and `np.random.choice(…, replace=False)`.  The state type is abstract;
the well-formedness facts numpy guarantees are taken as hypotheses of the
theorems that need them. -/
structure RNG (σ : Type) where
  seed : Nat → σ
  shuffle : σ → List String → σ × List String
  choice : σ → List String → Nat → σ × List String

/-- `np.random.shuffle` permutes its list (in particular preserves length). -/
def RNG.ShuffleLen {σ : Type} (R : RNG σ) : Prop :=
  ∀ s l, ((R.shuffle s l).2).length = l.length

/-- `np.random.choice(l, k, replace=False)` returns exactly `k` elements
whenever `k ≤ len(l)`. -/
def RNG.ChoiceLen {σ : Type} (R : RNG σ) : Prop :=
  ∀ s l k, k ≤ l.length → ((R.choice s l k).2).length = k

/-- Tail of the interleaving loop once one category list is exhausted:
the remaining concepts of the other category are appended one per
iteration, in order. -/
def trailingTrials (cat : Category) : List String → Nat → List Trial
  | [], _ => []
  | c :: cs, k => ⟨k + 1, c, cat⟩ :: trailingTrials cat cs (k + 1)

/-- The interleaving loop at the end of `create_stratified_block_sequence`:
`for i in range(max(len(a), len(b)))` append the i-th A-concept (if any)
then the i-th B-concept (if any), with `trial_num = len(trials) + 1`. -/
def interleaveTrials : List String → List String → Nat → List Trial
  | [], lb, k => trailingTrials Category.B lb k
  | a :: as, [], k =>
      ⟨k + 1, a, Category.A⟩ :: trailingTrials Category.A as (k + 1)
  | a :: as, b :: bs, k =>
      ⟨k + 1, a, Category.A⟩ :: ⟨k + 2, b, Category.B⟩ :: interleaveTrials as bs (k + 2)

/-- The per-category concept list before remainder handling:
`[concept] * trials_per_concept` for each concept, concatenated, where
`trials_per_concept = trials_per_category // len(concepts)`. -/
def conceptList (concepts : List String) (trials_per_category : Nat) : List String :=
  (concepts.map
    (fun c => List.replicate (trials_per_category / concepts.length) c)).flatten

/-- The remainder-handling block of `create_stratified_block_sequence`:
when the even split leaves `remainder > 0` slots, fill them with
`np.random.choice(concepts, remainder, replace=False)`. -/
def padConcepts {σ : Type} (R : RNG σ) (s : σ) (concepts : List String)
    (trials_per_category : Nat) : σ × List String :=
  let cl := conceptList concepts trials_per_category
  let remainder := trials_per_category - cl.length
  if remainder > 0 then
    let r := R.choice s concepts remainder
    (r.1, cl ++ r.2)
  else (s, cl)

/-- `create_stratified_block_sequence`.  `hashv` stands for Python's
process-level salted `hash` on strings; `s_in` is the incoming global numpy
RNG state, which the function immediately overwrites via `np.random.seed`. -/
def create_stratified_block_sequence {σ : Type} (R : RNG σ) (hashv : String → Nat)
    (n_trials_per_block : Nat) (concepts_a concepts_b : List String)
    (block_num : Nat) (participant_id : String) (session_id : Nat)
    (timestamp : String) (s_in : σ) : List Trial :=
  let seed_str := participant_id ++ "_" ++ toString session_id ++ "_" ++ timestamp
      ++ "_block" ++ toString block_num
  let seedv := hashv seed_str % 2 ^ 31
  let s0 := R.seed seedv
  let trials_per_category := n_trials_per_block / 2
  let st_a := padConcepts R s0 concepts_a trials_per_category
  let st_b := padConcepts R st_a.1 concepts_b trials_per_category
  let sh_a := R.shuffle st_b.1 st_a.2
  let sh_b := R.shuffle sh_a.1 st_b.2
  interleaveTrials sh_a.2 sh_b.2 0

/-- A degenerate but interface-conforming PRNG used to evaluate the
generator at concrete inputs: seeding yields the unit state, shuffling
returns the list unchanged, choice takes the first `k` elements. -/
def idRNG : RNG Unit where
  seed _ := ()
  shuffle s l := (s, l)
  choice s l k := (s, l.take k)

/-! ### Session state and protocol persistence (`paradigm/utils/block_utils.py`) -/

/-- One entry of a subject directory: its name and whether it is a
directory (`item.is_dir()`). -/
structure DirEntry where
  name : String
  isDir : Bool
deriving DecidableEq, Repr

/-- Value of the digit string of a `Block_XXXX` name. -/
def digitsToNat (cs : List Char) : Nat :=
  cs.foldl (fun acc c => acc * 10 + (c.toNat - Char.toNat '0')) 0

/-- The regex `^Block_(\d{4})$` of `find_block_folders`: the captured block
number, or `none` when the name does not match — the name must be the
literal `Block_` followed by exactly four digits. -/
def blockFolderNum (name : String) : Option Nat :=
  let cs := name.toList
  if cs.take 6 = "Block_".toList ∧ (cs.drop 6).length = 4
      ∧ (cs.drop 6).all Char.isDigit then
    some (digitsToNat (cs.drop 6))
  else none

/-- Insert into a sorted list of block numbers. -/
def insertSorted (n : Nat) : List Nat → List Nat
  | [] => [n]
  | m :: ms => if n ≤ m then n :: m :: ms else m :: insertSorted n ms

/-- Ascending stable sort of block numbers (`block_folders.sort(key=…)`). -/
def sortNats : List Nat → List Nat
  | [] => []
  | n :: ns => insertSorted n (sortNats ns)

/-- `find_block_folders`: the block numbers of the `Block_XXXX`
subdirectories of the subject folder, sorted ascending (the source sorts
the folder list by this number; only the numbers matter downstream). -/
def find_block_folders (entries : List DirEntry) : List Nat :=
  sortNats ((entries.filter (fun e => e.isDir)).filterMap (fun e => blockFolderNum e.name))

/-- `get_next_block_number`: 0 when no `Block_XXXX` folder exists, else the
maximum existing block number plus 1. -/
def get_next_block_number (entries : List DirEntry) : Nat :=
  let nums := find_block_folders entries
  match nums with
  | [] => 0
  | n :: rest => (rest.foldl max n) + 1

/-- JSON values as persisted by `json.dump` / read back by `json.load`;
the protocol artifacts contain strings, integers, booleans, nulls, arrays
and objects. -/
inductive Json where
  | str (s : String)
  | num (n : Int)
  | bool (b : Bool)
  | null
  | arr (elems : List Json)
  | obj (fields : List (String × Json))

/-- Python dict assignment `d[k] = v`: overwrite the binding in place when
the key exists, else append the new key at the end (keys of a Python dict
are unique). -/
def setKey : List (String × Json) → String → Json → List (String × Json)
  | [], k, v => [(k, v)]
  | p :: ps, k, v => if p.1 == k then (k, v) :: ps else p :: setKey ps k v

/-- Python dict lookup `d.get(k)`. -/
def getKey : List (String × Json) → String → Option Json
  | [], _ => none
  | p :: ps, k => if p.1 == k then some p.2 else getKey ps k

/-- `save_randomization_protocol`: adds `saved_at` and `participant_id` to
the caller's `randomization_data` dict in place, then dumps that dict to
the protocol file.  Returns `(mutated in-memory dict, stored artifact)`. -/
def save_randomization_protocol (randomization_data : List (String × Json))
    (saved_at participant_id : String) :
    List (String × Json) × List (String × Json) :=
  let mutated := setKey (setKey randomization_data "saved_at" (Json.str saved_at))
      "participant_id" (Json.str participant_id)
  (mutated, mutated)

/-- `load_randomization_protocol`: `json.load` of the stored artifact,
which reproduces the dumped dict exactly on this value domain. -/
def load_randomization_protocol (stored : List (String × Json)) :
    List (String × Json) :=
  stored

/-! ### Trigger dispatcher (`TriggerHandler` in `paradigm/utils/trigger_utils.py`) -/

/-- Handler configuration fixed at construction: whether a Biosemi serial
connection is present, whether parallel-port triggers are enabled, whether
the parallel port initialized, and whether CSV mirror logging initialized. -/
structure HandlerConfig where
  biosemi_connection : Bool
  use_triggers : Bool
  parallel_port : Bool
  csv_writer : Bool
deriving DecidableEq, Repr

/-- The per-call transport behaviour, supplied by the environment:
whether `send_biosemi_trigger` raises, what it returns when it does not,
and whether the parallel-port write raises. -/
structure TransportOutcome where
  biosemi_raises : Bool
  biosemi_result : Bool
  parallel_raises : Bool
deriving DecidableEq, Repr

/-- One row of the CSV mirror log (`_log_trigger_to_csv`):
timestamp, code, event name, `sent_to_eeg` flag. -/
structure CsvRow where
  timestamp : Nat
  trigger_code : Nat
  event_name : String
  sent_to_eeg : Bool
deriving DecidableEq, Repr

/-- The mutable parts of a `TriggerHandler` that `send_trigger` touches:
the CSV mirror log and the in-memory `trigger_log`. -/
structure HandlerState where
  csvRows : List CsvRow
  trigger_log : List CsvRow
deriving DecidableEq, Repr

/-- The inputs of one `send_trigger` call: the clock reading taken at
entry, the code and event name, and the transport outcome. -/
structure SendInput where
  timestamp : Nat
  trigger_code : Nat
  event_name : String
  outcome : TransportOutcome
deriving DecidableEq, Repr

/-- The `success` flag as computed by the control flow of `send_trigger`:
`success = False`; the Biosemi branch (when a connection exists) sets it to
the result of `send_biosemi_trigger` unless that call raises; the parallel
branch runs only when still unsuccessful, triggers are enabled and the port
exists, and sets `success = True` unless the write raises. -/
def sendSuccess (cfg : HandlerConfig) (o : TransportOutcome) : Bool :=
  let s1 := cfg.biosemi_connection && (!o.biosemi_raises && o.biosemi_result)
  if !s1 && cfg.use_triggers && cfg.parallel_port then !o.parallel_raises else s1

/-- `TriggerHandler.send_trigger`: computes `success`, appends one row to
the CSV mirror log when CSV logging is initialized, appends one entry to
the in-memory log, and returns `(timestamp, success)`. -/
def send_trigger (cfg : HandlerConfig) (st : HandlerState) (inp : SendInput) :
    HandlerState × Nat × Bool :=
  let success := sendSuccess cfg inp.outcome
  let row : CsvRow :=
    { timestamp := inp.timestamp, trigger_code := inp.trigger_code
      event_name := inp.event_name, sent_to_eeg := success }
  let st1 :=
    if cfg.csv_writer then { st with csvRows := st.csvRows ++ [row] } else st
  let st2 := { st1 with trigger_log := st1.trigger_log ++ [row] }
  (st2, inp.timestamp, success)

/-- A sequence of `send_trigger` calls, threading the handler state. -/
def runSends (cfg : HandlerConfig) (st : HandlerState) :
    List SendInput → HandlerState
  | [] => st
  | inp :: rest => runSends cfg (send_trigger cfg st inp).1 rest

/-- The CSV row `send_trigger` writes for a given call. -/
def rowOf (cfg : HandlerConfig) (inp : SendInput) : CsvRow :=
  { timestamp := inp.timestamp, trigger_code := inp.trigger_code
    event_name := inp.event_name, sent_to_eeg := sendSuccess cfg inp.outcome }

/-- Higher-level description of what `align_triggers_sequential` actually
does (the amended spec of the mismatch step): for each expected code, scan
forward through the not-yet-consumed suffix of the observed stream for its
first occurrence; on a hit the entry is matched and every observed element
up to and including the hit is consumed, on a miss the entry is reported
missing and no observed element is consumed. -/
def alignScanAhead : List Nat → List Nat → Nat → List AlignmentEntry
  | [], _, _ => []
  | e :: rest, obs, pos =>
    match obs.findIdx? (fun x => x == e) with
    | some k =>
        { sequence_position := pos + 1
          expected_code := e
          observed_code := some (obs.getD k 0)
          position_match := true
          code_match := obs.getD k 0 == e } :: alignScanAhead rest (obs.drop (k + 1)) (pos + 1)
    | none =>
        { sequence_position := pos + 1
          expected_code := e
          observed_code := none
          position_match := false
          code_match := false } :: alignScanAhead rest obs (pos + 1)

/-! ### Theorems -/

/-- Claim C1, counterexample: the allocator ranges are not pairwise
disjoint over the documented index ranges.  Trial 51's start code equals
block 1's start code (151), and trial 51's end code equals block 1's end
code (251). -/
theorem trial_block_code_overlap_cex :
    get_trial_start_code 51 = some 151 ∧ get_block_start_code 1 = some 151 ∧
    get_trial_end_code 51 = some 251 ∧ get_block_end_code 1 = some 251 := by
  decide

set_option maxRecDepth 8000 in
/-- Claim C1 (amended): the allocator ranges are pairwise disjoint only
when trial numbers are restricted to 1–50.  Then trial-start codes
(101–150), trial-end codes (201–250), block-start codes (151–159),
block-end codes (251–259), beep codes (31–38) and the non-beep base codes
of `TRIGGER_CODES` share no value.  Over the full documented trial range
1–99 every block-start code is also a trial-start code and every block-end
code is also a trial-end code. -/
theorem trigger_code_ranges_disjoint_amended :
    (trial_start_codes 1 50 ∩ trial_end_codes 1 50 = ∅) ∧
    (trial_start_codes 1 50 ∩ block_start_codes = ∅) ∧
    (trial_start_codes 1 50 ∩ block_end_codes = ∅) ∧
    (trial_start_codes 1 50 ∩ beep_codes_set = ∅) ∧
    (trial_start_codes 1 50 ∩ base_event_codes = ∅) ∧
    (trial_end_codes 1 50 ∩ block_start_codes = ∅) ∧
    (trial_end_codes 1 50 ∩ block_end_codes = ∅) ∧
    (trial_end_codes 1 50 ∩ beep_codes_set = ∅) ∧
    (trial_end_codes 1 50 ∩ base_event_codes = ∅) ∧
    (block_start_codes ∩ block_end_codes = ∅) ∧
    (block_start_codes ∩ beep_codes_set = ∅) ∧
    (block_start_codes ∩ base_event_codes = ∅) ∧
    (block_end_codes ∩ beep_codes_set = ∅) ∧
    (block_end_codes ∩ base_event_codes = ∅) ∧
    (beep_codes_set ∩ base_event_codes = ∅) ∧
    block_start_codes ⊆ trial_start_codes 1 99 ∧
    block_end_codes ⊆ trial_end_codes 1 99 := by
  decide

/-- Claim C3, counterexample: not every in-range allocator code fits in a
byte.  Trial 56's end code is 256 > 255, and block 6's end code is also
256 > 255. -/
theorem code_byte_overflow_cex :
    get_trial_end_code 56 = some 256 ∧ get_block_end_code 6 = some 256 ∧
    ¬(256 ≤ 255) := by
  decide

/-- Claim C3 (amended): in-range trial-start, block-start and beep codes
fit in a byte, but trial-end codes exceed 255 exactly for trial numbers
56–99 and block-end codes exceed 255 exactly for block numbers 6–9; every
in-range code is at most 299. -/
theorem allocator_code_bounds_amended (n b m : Nat)
    (hn1 : 1 ≤ n) (hn2 : n ≤ 99) (hb1 : 1 ≤ b) (hb2 : b ≤ 9)
    (hm1 : 1 ≤ m) (hm2 : m ≤ 8) :
    (get_trial_start_code n).getD 0 ≤ 255 ∧
    (get_block_start_code b).getD 0 ≤ 255 ∧
    (get_beep_code m 8).getD 0 ≤ 255 ∧
    ((get_trial_end_code n).getD 0 ≤ 255 ↔ n ≤ 55) ∧
    ((get_block_end_code b).getD 0 ≤ 255 ↔ b ≤ 5) ∧
    (get_trial_end_code n).getD 0 ≤ 299 ∧
    (get_block_end_code b).getD 0 ≤ 299 := by
  have hn : ¬(n < 1 ∨ n > 99) := by omega
  have hb : ¬(b < 1 ∨ b > 9) := by omega
  have hm : ¬(m < 1 ∨ m > 8) := by omega
  simp only [get_trial_start_code, get_trial_end_code, get_block_start_code,
    get_block_end_code, get_beep_code, if_neg hn, if_neg hb, if_neg hm,
    Option.getD_some]
  omega

/-- Witness for `allocator_code_bounds_amended` at trial 1, block 1,
beep 1. -/
theorem allocator_code_bounds_amended_witness :
    (get_trial_start_code 1).getD 0 ≤ 255 ∧
    (get_block_start_code 1).getD 0 ≤ 255 ∧
    (get_beep_code 1 8).getD 0 ≤ 255 ∧
    ((get_trial_end_code 1).getD 0 ≤ 255 ↔ 1 ≤ 55) ∧
    ((get_block_end_code 1).getD 0 ≤ 255 ↔ 1 ≤ 5) ∧
    (get_trial_end_code 1).getD 0 ≤ 299 ∧
    (get_block_end_code 1).getD 0 ≤ 299 :=
  allocator_code_bounds_amended 1 1 1 (by decide) (by decide) (by decide)
    (by decide) (by decide) (by decide)

/-- Claim C8: on the specification's two worked examples the aligner and
the statistics of `validate_against_ground_truth` produce exactly the
stated report: expected `[1,2,3,4,5]` against observed `[1,3,4,5]` gives
four matched entries, one missing entry whose expected code is 2, no
extras, match rate 4/5 and drop rate 1/5; expected `[1,2,3]` against
observed `[1,2,3,9]` gives three matched entries, no missing entry, one
extra (spurious) observed trigger, and drop rate 0. -/
theorem aligner_spec_examples :
    validationStats [1, 2, 3, 4, 5] [1, 3, 4, 5] =
      { total_expected := 5, total_observed := 4, matched := 4, missing := 1,
        extra := 0 } ∧
    ((align_triggers_sequential [1, 2, 3, 4, 5] [1, 3, 4, 5]).filter
        (fun a => !a.position_match)).map (fun a => a.expected_code) = [2] ∧
    match_rate [1, 2, 3, 4, 5] [1, 3, 4, 5] = 4 / 5 ∧
    drop_rate [1, 2, 3, 4, 5] [1, 3, 4, 5] = 1 / 5 ∧
    validationStats [1, 2, 3] [1, 2, 3, 9] =
      { total_expected := 3, total_observed := 4, matched := 3, missing := 0,
        extra := 1 } ∧
    match_rate [1, 2, 3] [1, 2, 3, 9] = 1 ∧
    drop_rate [1, 2, 3] [1, 2, 3, 9] = 0 := by
  refine ⟨by decide, by decide, ?_, ?_, by decide, ?_, ?_⟩ <;>
    norm_num [match_rate, drop_rate, validationStats, align_triggers_sequential,
      alignGo, findFrom]

/-- Claim C2, counterexample: on expected `[1]` and observed `[2, 1]` the
mismatch at the head does not drop the expected entry — the aligner skips
ahead past the observed `2` and reports a match, while the strict
lookahead-free rule of the specification reports the entry as dropped. -/
theorem aligner_lookahead_cex :
    align_triggers_sequential [1] [2, 1] =
      [{ sequence_position := 1, expected_code := 1, observed_code := some 1,
         position_match := true, code_match := true }] ∧
    alignSpecStrict [1] [2, 1] 0 =
      [{ sequence_position := 1, expected_code := 1, observed_code := none,
         position_match := false, code_match := false }] := by
  decide

/-- `alignGo` seen through the suffix of the observed stream that is still
unconsumed: the index-based loop of `align_triggers_sequential` equals the
suffix-based scan-ahead description. -/
theorem alignGo_eq_scanAhead (observed gt : List Nat) (pos j : Nat) :
    alignGo observed gt pos j = alignScanAhead gt (observed.drop j) pos := by
  induction gt generalizing pos j with
  | nil => rfl
  | cons e rest ih =>
    rw [alignGo, alignScanAhead]
    unfold findFrom
    cases h : (observed.drop j).findIdx? (fun x => x == e) with
    | none =>
      simp only [h, Option.map_none']
      rw [ih]
    | some k =>
      simp only [h, Option.map_some']
      have hg : observed.getD (k + j) 0 = (observed.drop j).getD k 0 := by
        simp [List.getD_eq_getElem?_getD, List.getElem?_drop, Nat.add_comm]
      have hd : (observed.drop j).drop (k + 1) = observed.drop (k + j + 1) := by
        rw [List.drop_drop]
        congr 1
        omega
      rw [ih, hg, hd]

/-- Claim C2 (amended): the aligner's mismatch step is not strict and not
lookahead-free.  `align_triggers_sequential` behaves as a greedy forward
scan: each expected code is matched against its first occurrence in the
not-yet-consumed suffix of the observed stream, consuming (skipping) every
observed element before that occurrence; only when the expected code does
not occur in the remaining observed stream at all is the entry classified
as missing, and then no observed element is consumed. -/
theorem aligner_scan_ahead_amended (ground_truth observed : List Nat) :
    align_triggers_sequential ground_truth observed =
      alignScanAhead ground_truth observed 0 := by
  simpa using alignGo_eq_scanAhead observed ground_truth 0 0

/-- Flattening `k` replicas of each element of `l` yields `|l| * k`
elements. -/
theorem flatten_replicate_length (l : List String) (k : Nat) :
    ((l.map (fun c => List.replicate k c)).flatten).length = l.length * k := by
  induction l with
  | nil => simp
  | cons c cs ih => simp [ih, Nat.succ_mul, Nat.add_comm]

/-- Length of the even-split concept list: one copy of the category per
`trials_per_category // len(concepts)` slots. -/
theorem conceptList_length (concepts : List String) (tpc : Nat) :
    (conceptList concepts tpc).length = concepts.length * (tpc / concepts.length) :=
  flatten_replicate_length concepts (tpc / concepts.length)

/-- After remainder handling each category holds exactly
`trials_per_category` concepts, for any PRNG whose
`choice(…, replace=False)` returns the requested number of elements. -/
theorem padConcepts_length {σ : Type} (R : RNG σ) (hc : R.ChoiceLen) (s : σ)
    (concepts : List String) (tpc : Nat) (hne : concepts ≠ []) :
    ((padConcepts R s concepts tpc).2).length = tpc := by
  have hpos : 0 < concepts.length := List.length_pos.mpr hne
  have hlen := conceptList_length concepts tpc
  have hmod := Nat.div_add_mod tpc concepts.length
  have hmlt : tpc % concepts.length < concepts.length := Nat.mod_lt _ hpos
  simp only [padConcepts]
  split
  · rename_i hrem
    simp only [List.length_append]
    rw [hc s concepts _ (by omega)]
    omega
  · rename_i hrem
    show (conceptList concepts tpc).length = tpc
    omega

/-- Statistics of the strict interleaving loop when both category lists
have the same length: it emits every element of both lists, alternating
A and B. -/
theorem interleaveTrials_stats (la lb : List String) (k : Nat)
    (h : la.length = lb.length) :
    (interleaveTrials la lb k).length = la.length + lb.length ∧
    (interleaveTrials la lb k).countP (fun t => t.category == Category.A) = la.length ∧
    (interleaveTrials la lb k).countP (fun t => t.category == Category.B) = lb.length := by
  induction la generalizing lb k with
  | nil =>
    cases lb with
    | nil => simp [interleaveTrials, trailingTrials]
    | cons b bs => simp at h
  | cons a as ih =>
    cases lb with
    | nil => simp at h
    | cons b bs =>
      have h' : as.length = bs.length := by simpa using h
      obtain ⟨h1, h2, h3⟩ := ih bs (k + 2) h'
      refine ⟨?_, ?_, ?_⟩ <;>
        simp [interleaveTrials, List.countP_cons, h1, h2, h3] <;> omega

/-- Claim C5, counterexample: with 5 trials per block and one concept per
category, the generated block holds only 4 trials — the odd trial is not
given to category A, it is silently dropped, because both categories get
exactly `n_trials_per_block // 2` trials. -/
theorem stratified_odd_trials_cex :
    (create_stratified_block_sequence idRNG (fun _ => 0) 5 ["cat"] ["dog"] 0
      "9999" 1 "20260101_000000" ()).length = 4 ∧
    (create_stratified_block_sequence idRNG (fun _ => 0) 5 ["cat"] ["dog"] 0
      "9999" 1 "20260101_000000" ()).length ≠ 5 := by
  decide

/-- Claim C5 (amended): for non-empty concept lists and any PRNG with
numpy's interface guarantees, the generated block contains
`2 * (n_trials_per_block // 2)` trials — all of them only when
`n_trials_per_block` is even — and the two categories receive exactly
`n_trials_per_block // 2` trials each (so their counts differ by 0, and
the odd remainder trial is dropped rather than given to category A). -/
theorem stratified_block_counts_amended {σ : Type} (R : RNG σ)
    (hs : R.ShuffleLen) (hc : R.ChoiceLen) (hashv : String → Nat)
    (n : Nat) (a b : List String) (blk : Nat) (pid : String) (sid : Nat)
    (ts : String) (s : σ) (ha : a ≠ []) (hb : b ≠ []) :
    (create_stratified_block_sequence R hashv n a b blk pid sid ts s).length
        = 2 * (n / 2) ∧
    ((create_stratified_block_sequence R hashv n a b blk pid sid ts s).countP
        (fun t => t.category == Category.A)) = n / 2 ∧
    ((create_stratified_block_sequence R hashv n a b blk pid sid ts s).countP
        (fun t => t.category == Category.B)) = n / 2 := by
  simp only [create_stratified_block_sequence]
  set s0 := R.seed (hashv (pid ++ "_" ++ toString sid ++ "_" ++ ts
      ++ "_block" ++ toString blk) % 2 ^ 31) with hs0
  have hla : ((padConcepts R s0 a (n / 2)).2).length = n / 2 :=
    padConcepts_length R hc s0 a (n / 2) ha
  have hlb : ((padConcepts R (padConcepts R s0 a (n / 2)).1 b (n / 2)).2).length
      = n / 2 :=
    padConcepts_length R hc _ b (n / 2) hb
  set stA := padConcepts R s0 a (n / 2) with hstA
  set stB := padConcepts R stA.1 b (n / 2) with hstB
  have hsa : ((R.shuffle stB.1 stA.2).2).length = n / 2 := by
    rw [hs stB.1 stA.2]; exact hla
  have hsb : ((R.shuffle (R.shuffle stB.1 stA.2).1 stB.2).2).length = n / 2 := by
    rw [hs _ stB.2]; exact hlb
  obtain ⟨h1, h2, h3⟩ := interleaveTrials_stats
    (R.shuffle stB.1 stA.2).2 (R.shuffle (R.shuffle stB.1 stA.2).1 stB.2).2 0
    (by rw [hsa, hsb])
  refine ⟨?_, ?_, ?_⟩
  · rw [h1, hsa, hsb]; ring
  · rw [h2, hsa]
  · rw [h3, hsb]

/-- Witness for `stratified_block_counts_amended`: the interface-conforming
`idRNG` with six trials and one concept per category. -/
theorem stratified_block_counts_amended_witness :
    (create_stratified_block_sequence idRNG (fun _ => 0) 6 ["x"] ["y"] 0
      "p" 1 "t" ()).length = 2 * (6 / 2) ∧
    ((create_stratified_block_sequence idRNG (fun _ => 0) 6 ["x"] ["y"] 0
      "p" 1 "t" ()).countP (fun t => t.category == Category.A)) = 6 / 2 ∧
    ((create_stratified_block_sequence idRNG (fun _ => 0) 6 ["x"] ["y"] 0
      "p" 1 "t" ()).countP (fun t => t.category == Category.B)) = 6 / 2 :=
  stratified_block_counts_amended idRNG (fun _ _ => rfl)
    (fun _ l k h => by simp [idRNG, Nat.min_eq_left h])
    (fun _ => 0) 6 ["x"] ["y"] 0 "p" 1 "t" () (by decide) (by decide)

/-- Claim C7: block generation is deterministic in its arguments.  The
embedding makes the ambient numpy RNG state an explicit input, and because
`create_stratified_block_sequence` begins by reseeding the PRNG from a
seed derived only from `(participant_id, session_id, timestamp,
block_num)`, the result does not depend on the incoming state: two
invocations with identical arguments (within one process, i.e. the same
salted string-hash function `hashv`) give identical trial sequences. -/
theorem stratified_block_deterministic {σ : Type} (R : RNG σ)
    (hashv : String → Nat) (n : Nat) (a b : List String) (blk : Nat)
    (pid : String) (sid : Nat) (ts : String) (s1 s2 : σ) :
    create_stratified_block_sequence R hashv n a b blk pid sid ts s1 =
      create_stratified_block_sequence R hashv n a b blk pid sid ts s2 := rfl

/-- `setKey` stores the assigned value under the assigned key. -/
theorem getKey_setKey_self (fields : List (String × Json)) (k : String) (v : Json) :
    getKey (setKey fields k v) k = some v := by
  induction fields with
  | nil => simp [setKey, getKey]
  | cons p ps ih =>
    by_cases hp : (p.1 == k) = true
    · simp [setKey, getKey, hp]
    · have hp2 : (p.1 == k) = false := by simpa using hp
      simp [setKey, getKey, hp2, ih]

/-- `setKey` leaves every other key's binding unchanged. -/
theorem getKey_setKey_other (fields : List (String × Json)) (k q : String)
    (v : Json) (h : q ≠ k) : getKey (setKey fields k v) q = getKey fields q := by
  have hkq : (k == q) = false := by simp [Ne.symm h]
  induction fields with
  | nil => simp [setKey, getKey, hkq]
  | cons p ps ih =>
    by_cases hp : (p.1 == k) = true
    · have hp1 : p.1 = k := by simpa using hp
      have hp' : (p.1 == q) = false := by simp [hp1, Ne.symm h]
      simp [setKey, getKey, hp, hp', hkq]
    · have hp2 : (p.1 == k) = false := by simpa using hp
      simp only [setKey, hp2, Bool.false_eq_true, if_false, getKey, ih]

/-- Claim C4, counterexample: persistence does not round-trip the original
generated protocol.  Saving `{'all_blocks_trials': []}` stores a dict that
additionally contains `saved_at` and `participant_id`, so loading it back
does not return the protocol that was generated. -/
theorem protocol_roundtrip_cex :
    load_randomization_protocol
        (save_randomization_protocol [("all_blocks_trials", Json.arr [])]
          "2026-01-26T16:00:00" "9999").2 ≠
      [("all_blocks_trials", Json.arr [])] := by
  intro hcontra
  have h1 := congrArg (fun l => getKey l "saved_at") hcontra
  simp only [load_randomization_protocol, save_randomization_protocol] at h1
  rw [getKey_setKey_other _ _ _ _ (by decide), getKey_setKey_self] at h1
  simp [getKey] at h1

/-- Claim C4 (amended): loading the saved artifact reproduces exactly the
in-memory dict as it stands after `save_randomization_protocol` mutated it
— the original protocol plus the bindings `saved_at` and `participant_id`;
every other key's binding round-trips unchanged. -/
theorem protocol_roundtrip_amended (p : List (String × Json)) (t pid k : String)
    (hk1 : k ≠ "saved_at") (hk2 : k ≠ "participant_id") :
    load_randomization_protocol (save_randomization_protocol p t pid).2 =
      (save_randomization_protocol p t pid).1 ∧
    getKey (load_randomization_protocol (save_randomization_protocol p t pid).2)
      "participant_id" = some (Json.str pid) ∧
    getKey (load_randomization_protocol (save_randomization_protocol p t pid).2)
      "saved_at" = some (Json.str t) ∧
    getKey (load_randomization_protocol (save_randomization_protocol p t pid).2) k
      = getKey p k := by
  refine ⟨rfl, ?_, ?_, ?_⟩ <;>
    simp only [load_randomization_protocol, save_randomization_protocol]
  · exact getKey_setKey_self ..
  · rw [getKey_setKey_other _ _ _ _ (by decide), getKey_setKey_self]
  · rw [getKey_setKey_other _ _ _ _ hk2, getKey_setKey_other _ _ _ _ hk1]

/-- Witness for `protocol_roundtrip_amended` on a one-key protocol. -/
theorem protocol_roundtrip_amended_witness :
    load_randomization_protocol
        (save_randomization_protocol [("all_blocks_trials", Json.arr [])]
          "2026-01-26T16:00:00" "9999").2 =
      (save_randomization_protocol [("all_blocks_trials", Json.arr [])]
        "2026-01-26T16:00:00" "9999").1 ∧
    getKey (load_randomization_protocol
        (save_randomization_protocol [("all_blocks_trials", Json.arr [])]
          "2026-01-26T16:00:00" "9999").2) "participant_id" =
      some (Json.str "9999") ∧
    getKey (load_randomization_protocol
        (save_randomization_protocol [("all_blocks_trials", Json.arr [])]
          "2026-01-26T16:00:00" "9999").2) "saved_at" =
      some (Json.str "2026-01-26T16:00:00") ∧
    getKey (load_randomization_protocol
        (save_randomization_protocol [("all_blocks_trials", Json.arr [])]
          "2026-01-26T16:00:00" "9999").2) "all_blocks_trials" =
      getKey [("all_blocks_trials", Json.arr [])] "all_blocks_trials" :=
  protocol_roundtrip_amended [("all_blocks_trials", Json.arr [])]
    "2026-01-26T16:00:00" "9999" "all_blocks_trials" (by decide) (by decide)

/-- Claim C10: `save_randomization_protocol` mutates the caller's protocol
dict in place before persisting — after the call the in-memory dict has
gained the bindings `saved_at` and `participant_id`, so a protocol that
lacked `saved_at` is no longer equal to its pre-save value. -/
theorem save_protocol_mutates_input (p : List (String × Json)) (t pid : String)
    (h : getKey p "saved_at" = none) :
    getKey (save_randomization_protocol p t pid).1 "saved_at" =
      some (Json.str t) ∧
    getKey (save_randomization_protocol p t pid).1 "participant_id" =
      some (Json.str pid) ∧
    (save_randomization_protocol p t pid).1 ≠ p := by
  refine ⟨?_, ?_, ?_⟩
  · simp only [save_randomization_protocol]
    rw [getKey_setKey_other _ _ _ _ (by decide), getKey_setKey_self]
  · simp only [save_randomization_protocol]
    exact getKey_setKey_self ..
  · intro hcontra
    have h1 := congrArg (fun l => getKey l "saved_at") hcontra
    simp only [save_randomization_protocol] at h1
    rw [getKey_setKey_other _ _ _ _ (by decide), getKey_setKey_self, h] at h1
    exact Option.noConfusion h1

/-- Witness for `save_protocol_mutates_input` on a one-key protocol. -/
theorem save_protocol_mutates_input_witness :
    getKey (save_randomization_protocol [("all_blocks_trials", Json.arr [])]
        "2026-01-26T16:00:00" "9999").1 "saved_at" =
      some (Json.str "2026-01-26T16:00:00") ∧
    getKey (save_randomization_protocol [("all_blocks_trials", Json.arr [])]
        "2026-01-26T16:00:00" "9999").1 "participant_id" =
      some (Json.str "9999") ∧
    (save_randomization_protocol [("all_blocks_trials", Json.arr [])]
        "2026-01-26T16:00:00" "9999").1 ≠
      [("all_blocks_trials", Json.arr [])] :=
  save_protocol_mutates_input [("all_blocks_trials", Json.arr [])]
    "2026-01-26T16:00:00" "9999" rfl

/-- A left fold by `max` yields the start value or a list element. -/
theorem foldl_max_mem (l : List Nat) (n : Nat) :
    l.foldl max n = n ∨ l.foldl max n ∈ l := by
  induction l generalizing n with
  | nil => left; rfl
  | cons x xs ih =>
    rcases ih (max n x) with h | h
    · rcases max_choice n x with hx | hx
      · left
        rw [List.foldl_cons, h, hx]
      · right
        rw [List.foldl_cons, h, hx]
        exact List.mem_cons_self x xs
    · right
      rw [List.foldl_cons]
      exact List.mem_cons_of_mem x h

/-- A left fold by `max` bounds the start value and every list element. -/
theorem le_foldl_max (l : List Nat) (n : Nat) :
    n ≤ l.foldl max n ∧ ∀ m ∈ l, m ≤ l.foldl max n := by
  induction l generalizing n with
  | nil => exact ⟨Nat.le_refl n, by intro m hm; cases hm⟩
  | cons x xs ih =>
    obtain ⟨h1, h2⟩ := ih (max n x)
    refine ⟨le_trans (le_max_left n x) h1, ?_⟩
    intro m hm
    rcases List.mem_cons.mp hm with rfl | hm'
    · exact le_trans (le_max_right n m) h1
    · exact h2 m hm'

/-- Claim C9: `get_next_block_number` returns 0 when the subject directory
holds no `Block_XXXX` folder, and otherwise one more than the largest
existing block number; in particular with blocks `{0, 1}` present it
returns 2. -/
theorem next_block_number_spec (entries : List DirEntry) :
    (find_block_folders entries = [] → get_next_block_number entries = 0) ∧
    (find_block_folders entries ≠ [] →
      (get_next_block_number entries - 1) ∈ find_block_folders entries ∧
      ∀ m ∈ find_block_folders entries, m ≤ get_next_block_number entries - 1) ∧
    get_next_block_number
      [{ name := "Block_0000", isDir := true },
       { name := "Block_0001", isDir := true }] = 2 ∧
    get_next_block_number ([] : List DirEntry) = 0 := by
  refine ⟨?_, ?_, by decide, by decide⟩
  · intro h
    simp [get_next_block_number, h]
  · intro h
    rcases hn : find_block_folders entries with _ | ⟨n, rest⟩
    · exact absurd hn h
    · have hval : get_next_block_number entries = (rest.foldl max n) + 1 := by
        simp [get_next_block_number, hn]
      rw [hval]
      simp only [Nat.add_sub_cancel]
      constructor
      · rcases foldl_max_mem rest n with h1 | h1
        · rw [h1]; exact List.mem_cons_self n rest
        · exact List.mem_cons_of_mem n h1
      · intro m hm
        rcases List.mem_cons.mp hm with rfl | hm'
        · exact (le_foldl_max rest m).1
        · exact (le_foldl_max rest n).2 m hm'

/-- Witness for `next_block_number_spec`: a directory holding block 3
only (plus a non-matching file) has next block number 4 = max + 1. -/
theorem next_block_number_spec_witness :
    find_block_folders
        [{ name := "Block_0003", isDir := true },
         { name := "notes.txt", isDir := false }] ≠ [] ∧
    (get_next_block_number
        [{ name := "Block_0003", isDir := true },
         { name := "notes.txt", isDir := false }] - 1) ∈
      find_block_folders
        [{ name := "Block_0003", isDir := true },
         { name := "notes.txt", isDir := false }] :=
  ⟨by decide,
    ((next_block_number_spec
        [{ name := "Block_0003", isDir := true },
         { name := "notes.txt", isDir := false }]).2.1 (by decide)).1⟩

/-- One `send_trigger` call appends exactly its row to the CSV mirror log
when CSV logging is initialized. -/
theorem send_trigger_csvRows (cfg : HandlerConfig) (st : HandlerState)
    (inp : SendInput) (hcsv : cfg.csv_writer = true) :
    (send_trigger cfg st inp).1.csvRows = st.csvRows ++ [rowOf cfg inp] := by
  simp [send_trigger, hcsv, rowOf]

/-- Running a list of `send_trigger` calls appends exactly one CSV row per
call, in call order. -/
theorem runSends_csvRows (cfg : HandlerConfig) (hcsv : cfg.csv_writer = true)
    (inputs : List SendInput) :
    ∀ st : HandlerState,
      (runSends cfg st inputs).csvRows = st.csvRows ++ inputs.map (rowOf cfg) := by
  induction inputs with
  | nil => intro st; simp [runSends]
  | cons inp rest ih =>
    intro st
    rw [runSends, ih]
    rw [send_trigger_csvRows cfg st inp hcsv]
    simp

/-- Claim C6: with CSV logging initialized, N `send_trigger` calls append
exactly N rows to the mirror log, in call order, whatever the per-call
transport outcomes; and a call with no usable hardware channel, or whose
hardware writes raise, still returns `(timestamp, success = false)` and
still appends its row instead of raising. -/
theorem dispatcher_mirror_log_invariant (cfg : HandlerConfig)
    (st : HandlerState) (inputs : List SendInput)
    (hcsv : cfg.csv_writer = true) :
    ((runSends cfg st inputs).csvRows = st.csvRows ++ inputs.map (rowOf cfg)) ∧
    ((runSends cfg st inputs).csvRows.length
        = st.csvRows.length + inputs.length) ∧
    (∀ inp : SendInput, cfg.biosemi_connection = false →
      cfg.use_triggers = false ∨ cfg.parallel_port = false →
      (send_trigger cfg st inp).2 = (inp.timestamp, false) ∧
      (send_trigger cfg st inp).1.csvRows = st.csvRows ++ [rowOf cfg inp]) ∧
    (∀ inp : SendInput, inp.outcome.biosemi_raises = true →
      inp.outcome.parallel_raises = true →
      (send_trigger cfg st inp).2 = (inp.timestamp, false)) := by
  refine ⟨runSends_csvRows cfg hcsv inputs st, ?_, ?_, ?_⟩
  · rw [runSends_csvRows cfg hcsv inputs st]
    simp
  · intro inp hbio hpar
    refine ⟨?_, send_trigger_csvRows cfg st inp hcsv⟩
    rcases hpar with hp | hp <;>
      simp [send_trigger, sendSuccess, hbio, hp]
  · intro inp hbr hpr
    rcases hub : cfg.use_triggers with _ | _ <;>
      rcases hpp : cfg.parallel_port with _ | _ <;>
      simp [send_trigger, sendSuccess, hbr, hpr, hub, hpp]

/-- Witness for `dispatcher_mirror_log_invariant`: a handler with CSV
logging, no Biosemi connection and no parallel port, over two calls whose
transports fail. -/
theorem dispatcher_mirror_log_invariant_witness :
    ((runSends
        { biosemi_connection := false, use_triggers := false,
          parallel_port := false, csv_writer := true }
        { csvRows := [], trigger_log := [] }
        [{ timestamp := 1, trigger_code := 2, event_name := "trial_start",
           outcome := { biosemi_raises := true, biosemi_result := false,
                        parallel_raises := true } },
         { timestamp := 2, trigger_code := 40, event_name := "trial_end",
           outcome := { biosemi_raises := false, biosemi_result := false,
                        parallel_raises := false } }]).csvRows =
      [] ++ List.map
        (rowOf { biosemi_connection := false, use_triggers := false,
                 parallel_port := false, csv_writer := true })
        [{ timestamp := 1, trigger_code := 2, event_name := "trial_start",
           outcome := { biosemi_raises := true, biosemi_result := false,
                        parallel_raises := true } },
         { timestamp := 2, trigger_code := 40, event_name := "trial_end",
           outcome := { biosemi_raises := false, biosemi_result := false,
                        parallel_raises := false } }]) ∧
    ((runSends
        { biosemi_connection := false, use_triggers := false,
          parallel_port := false, csv_writer := true }
        { csvRows := [], trigger_log := [] }
        [{ timestamp := 1, trigger_code := 2, event_name := "trial_start",
           outcome := { biosemi_raises := true, biosemi_result := false,
                        parallel_raises := true } },
         { timestamp := 2, trigger_code := 40, event_name := "trial_end",
           outcome := { biosemi_raises := false, biosemi_result := false,
                        parallel_raises := false } }]).csvRows.length =
      ([] : List CsvRow).length + 2) :=
  ⟨(dispatcher_mirror_log_invariant _ _ _ rfl).1,
    (dispatcher_mirror_log_invariant _ _ _ rfl).2.1⟩
